import Mathlib

/-!
Verification of the realtorAgentValidation repository: a shallow embedding of
the agent-record data model (`scraper.AgentInfo`), the concurrent detail
enrichment pipeline (`main.get_all_agents_full` / its inner `get_detailed_info`),
the MCP-transport variant (`scraper_mcp.scrape_agents_full_mcp`), the field
normalizers (`normalize_string` / `normalize_phone` / `normalize_email`), the
match evaluator (`agent_matches`) and the `verify_agent` request handler.

Modelling conventions: Python `Optional[str]` becomes `Option String`; Python
truthiness of an optional string (`None` and `""` are falsy) is `truthyStr`;
the remote `scrape_agent_profile` collaborator is an oracle
`String → FetchResult` distinguishing a successful record, a `None` return and
a raised exception; case-folding and whitespace are modelled over ASCII.
-/

/-- The `AgentInfo` pydantic model of `scraper.py`: every field optional. -/
structure AgentInfo where
  name : Option String := none
  location : Option String := none
  profile_url : Option String := none
  phone : Option String := none
  email : Option String := none
  bio : Option String := none
  specialties : Option (List String) := none
  languages : Option (List String) := none
  years_experience : Option String := none
  image_url : Option String := none
  office : Option String := none
  license : Option String := none
  website : Option String := none
  facebook : Option String := none
  instagram : Option String := none
deriving Repr, DecidableEq

/-- Python truthiness of an `Optional[str]`: `None` and `""` are falsy. -/
def truthyStr : Option String → Bool
  | none => false
  | some s => decide (s ≠ "")

/-- Python truthiness of an `Optional[List[str]]`: `None` and `[]` are falsy. -/
def truthyList : Option (List String) → Bool
  | none => false
  | some l => decide (l ≠ [])

/-- Python `d or s` on optional strings: `d` when truthy, else `s` unchanged. -/
def orStr (d s : Option String) : Option String :=
  if truthyStr d then d else s

/-- Python `d or s` on optional string lists. -/
def orList (d s : Option (List String)) : Option (List String) :=
  if truthyList d then d else s

/-- The characters matched by Python's `\s` over ASCII input. -/
def isPySpace (c : Char) : Bool :=
  c = ' ' || c = '\t' || c = '\n' || c = '\r' || c = '\x0b' || c = '\x0c'

/-- Python `str.lower()` (ASCII case-folding). -/
def pyLower (s : String) : String :=
  String.mk (s.data.map Char.toLower)

/-- Python `str.strip()`: remove leading and trailing whitespace. -/
def pyStrip (s : String) : String :=
  String.mk (((s.data.dropWhile isPySpace).reverse.dropWhile isPySpace).reverse)

/-- The characters of the literal `/profile/` looked for by
`re.search(r'/profile/([^/?]+)', ...)` in `main.py` line 136. -/
def markerChars : List Char := ['/', 'p', 'r', 'o', 'f', 'i', 'l', 'e', '/']

/-- Whether the first list occurs at the head of the second. -/
def beginsWith : List Char → List Char → Bool
  | [], _ => true
  | _ :: _, [] => false
  | p :: ps, c :: cs => p = c && beginsWith ps cs

/-- The capture group `[^/?]+`: maximal run of characters other than
`/` and `?`. -/
def profileIdChars (cs : List Char) : List Char :=
  cs.takeWhile (fun c => !(c = '/' || c = '?'))

/-- `re.search(r'/profile/([^/?]+)', url)` scanning left to right: at each
position, if the literal `/profile/` begins there and is followed by at least
one character other than `/` and `?`, the match succeeds with that maximal
run as the captured identifier; otherwise the scan moves one character right. -/
def extractProfileIdAux : List Char → Option String
  | [] => none
  | c :: rest =>
    if beginsWith markerChars (c :: rest) then
      let idc := profileIdChars ((c :: rest).drop markerChars.length)
      if idc.isEmpty then extractProfileIdAux rest else some (String.mk idc)
    else extractProfileIdAux rest

/-- Identifier extraction from a profile URL (`main.py` lines 136-138). -/
def extractProfileId (url : String) : Option String :=
  extractProfileIdAux url.data

/-- Outcome of one `scrape_agent_profile` call: a record, a `None` return,
or a raised exception. -/
inductive FetchResult where
  | success (info : AgentInfo)
  | empty
  | failure
deriving Repr, DecidableEq

/-- The merge of `main.py` lines 145-161: every field prefers the detail
value under Python truthiness, except `profile_url`, which is taken from the
summary record. -/
def mergeAgent (detailed agent : AgentInfo) : AgentInfo where
  name := orStr detailed.name agent.name
  location := orStr detailed.location agent.location
  profile_url := agent.profile_url
  phone := orStr detailed.phone agent.phone
  email := orStr detailed.email agent.email
  bio := orStr detailed.bio agent.bio
  specialties := orList detailed.specialties agent.specialties
  languages := orList detailed.languages agent.languages
  years_experience := orStr detailed.years_experience agent.years_experience
  image_url := orStr detailed.image_url agent.image_url
  office := orStr detailed.office agent.office
  license := orStr detailed.license agent.license
  website := orStr detailed.website agent.website
  facebook := orStr detailed.facebook agent.facebook
  instagram := orStr detailed.instagram agent.instagram

/-- The body of `get_detailed_info` in `main.py` lines 130-167, for one
summary record, instrumented with the outcome a run observes: the produced
record, the number of entries appended to `failed_profiles` (1 exactly when
the fetch raised), and the list of identifiers actually fetched. -/
def get_detailed_info (fetch : String → FetchResult) (agent : AgentInfo) :
    AgentInfo × Nat × List String :=
  match extractProfileId (agent.profile_url.getD "") with
  | none => (agent, 0, [])
  | some profile_id =>
    match fetch profile_id with
    | FetchResult.success detailed_info =>
        (mergeAgent detailed_info agent, 0, [profile_id])
    | FetchResult.empty => (agent, 0, [profile_id])
    | FetchResult.failure => (agent, 1, [profile_id])

/-- The batch pipeline of `main.py` lines 124-175: one task per summary
record, results gathered in input order; returns the enriched batch and the
length of `failed_profiles`. -/
def get_all_agents_full (fetch : String → FetchResult) (agents : List AgentInfo) :
    List AgentInfo × Nat :=
  (agents.map (fun a => (get_detailed_info fetch a).1),
   (agents.map (fun a => (get_detailed_info fetch a).2.1)).sum)

/-- Whether the unit for a summary record reaches the exception handler
(`main.py` lines 164-167): an identifier was derived and its fetch raised. -/
def fetchRaised (fetch : String → FetchResult) (a : AgentInfo) : Bool :=
  match extractProfileId (a.profile_url.getD "") with
  | none => false
  | some pid =>
    match fetch pid with
    | FetchResult.failure => true
    | _ => false

/-- Claim C1: for every input batch of N summary records, the enrichment
pipeline returns exactly N output records, one per input summary, whatever
each detail fetch does. -/
theorem enrich_output_length (fetch : String → FetchResult)
    (agents : List AgentInfo) :
    (get_all_agents_full fetch agents).1.length = agents.length := by
  simp [get_all_agents_full]

lemma get_detailed_info_snd (fetch : String → FetchResult) (a : AgentInfo) :
    (get_detailed_info fetch a).2.1 = if fetchRaised fetch a then 1 else 0 := by
  unfold get_detailed_info fetchRaised
  cases h : extractProfileId (a.profile_url.getD "") with
  | none => simp
  | some pid => cases hf : fetch pid <;> simp [hf]

lemma get_all_agents_full_snd (fetch : String → FetchResult)
    (agents : List AgentInfo) :
    (get_all_agents_full fetch agents).2 =
      (agents.filter (fetchRaised fetch)).length := by
  unfold get_all_agents_full
  induction agents with
  | nil => simp
  | cons a rest ih =>
    simp only [List.map_cons, List.sum_cons, List.filter_cons,
      get_detailed_info_snd] at *
    cases h : fetchRaised fetch a <;> simp [h, ih, Nat.add_comm]

/-- Claim C2 counterexample: a batch of one summary record whose detail fetch
returns an empty result reports a failure total of 0, not 1 — an empty/none
fetch result does not increment the failure counter. -/
theorem empty_result_not_counted :
    (get_all_agents_full (fun _ => FetchResult.empty)
      [{ profile_url := some "https://onereal.com/profile/aniraula" }]).2 ≠ 1 := by
  decide

/-- Claim C2 (amended): a record whose detail fetch raises or returns an
empty/none result never aborts the batch — its output slot is the original
summary unchanged — but the failure counter increments only when the fetch
raises; the reported failure total equals the count of records whose detail
fetch raised an exception. -/
theorem failure_accounting (fetch : String → FetchResult)
    (agents : List AgentInfo) :
    (get_all_agents_full fetch agents).2 =
      (agents.filter (fetchRaised fetch)).length
    ∧ ∀ a pid, extractProfileId (a.profile_url.getD "") = some pid →
        fetch pid = FetchResult.empty ∨ fetch pid = FetchResult.failure →
        (get_detailed_info fetch a).1 = a ∧
        (get_detailed_info fetch a).2.1 =
          (if fetch pid = FetchResult.failure then 1 else 0) := by
  refine ⟨get_all_agents_full_snd fetch agents, ?_⟩
  intro a pid hpid hf
  unfold get_detailed_info
  rw [hpid]
  rcases hf with hf | hf <;> simp [hf]

/-- A fetch oracle that raises for identifier `bad` and returns empty
otherwise, used by the Claim C2 witness. -/
def w2fetch : String → FetchResult :=
  fun pid => if pid = "bad" then FetchResult.failure else FetchResult.empty

/-- A summary record whose fetch returns empty, for the Claim C2 witness. -/
def w2a : AgentInfo := { profile_url := some "https://onereal.com/profile/aniraula" }

/-- A summary record whose fetch raises, for the Claim C2 witness. -/
def w2b : AgentInfo := { profile_url := some "https://onereal.com/profile/bad" }

/-- Witness for the amended Claim C2 at a concrete batch: one record whose
fetch returns empty, one whose fetch raises. -/
theorem failure_accounting_witness :
    ((get_all_agents_full w2fetch [w2a, w2b]).2 =
      ([w2a, w2b].filter (fetchRaised w2fetch)).length)
    ∧ ((get_detailed_info w2fetch w2a).1 = w2a ∧
       (get_detailed_info w2fetch w2a).2.1 =
        (if w2fetch "aniraula" = FetchResult.failure then 1 else 0)) :=
  ⟨(failure_accounting w2fetch [w2a, w2b]).1,
   (failure_accounting w2fetch [w2a, w2b]).2 w2a "aniraula"
    (by decide) (Or.inl (by decide))⟩

/-- A field value is present when it is non-empty and non-null. -/
def presentStr : Option String → Bool
  | none => false
  | some s => decide (s ≠ "")

/-- A collection field value is present when it is non-empty and non-null. -/
def presentList : Option (List String) → Bool
  | none => false
  | some l => decide (l ≠ [])

lemma orStr_eq_present (d s : Option String) :
    orStr d s = if presentStr d then d else s := by
  cases d <;> simp [orStr, truthyStr, presentStr]

lemma orList_eq_present (d s : Option (List String)) :
    orList d s = if presentList d then d else s := by
  cases d <;> simp [orList, truthyList, presentList]

/-- The per-field merge outcome Claim C3 asserts for a successfully fetched
detail record: every field takes the detail value when present
(non-empty/non-null), else the summary value, except `profile_url`, which is
always the summary record's. -/
def mergedFieldsFollowSpec (fetch : String → FetchResult) (a d : AgentInfo) : Prop :=
  (get_detailed_info fetch a).1.profile_url = a.profile_url
  ∧ (get_detailed_info fetch a).1.name =
      (if presentStr d.name then d.name else a.name)
  ∧ (get_detailed_info fetch a).1.location =
      (if presentStr d.location then d.location else a.location)
  ∧ (get_detailed_info fetch a).1.phone =
      (if presentStr d.phone then d.phone else a.phone)
  ∧ (get_detailed_info fetch a).1.email =
      (if presentStr d.email then d.email else a.email)
  ∧ (get_detailed_info fetch a).1.bio =
      (if presentStr d.bio then d.bio else a.bio)
  ∧ (get_detailed_info fetch a).1.specialties =
      (if presentList d.specialties then d.specialties else a.specialties)
  ∧ (get_detailed_info fetch a).1.languages =
      (if presentList d.languages then d.languages else a.languages)
  ∧ (get_detailed_info fetch a).1.years_experience =
      (if presentStr d.years_experience then d.years_experience else a.years_experience)
  ∧ (get_detailed_info fetch a).1.image_url =
      (if presentStr d.image_url then d.image_url else a.image_url)
  ∧ (get_detailed_info fetch a).1.office =
      (if presentStr d.office then d.office else a.office)
  ∧ (get_detailed_info fetch a).1.license =
      (if presentStr d.license then d.license else a.license)
  ∧ (get_detailed_info fetch a).1.website =
      (if presentStr d.website then d.website else a.website)
  ∧ (get_detailed_info fetch a).1.facebook =
      (if presentStr d.facebook then d.facebook else a.facebook)
  ∧ (get_detailed_info fetch a).1.instagram =
      (if presentStr d.instagram then d.instagram else a.instagram)

/-- Claim C3: when the detail fetch succeeds with a record, every field of the
merged output equals the detail value when present (non-empty/non-null), else
the summary value, except `profile_url`, which always equals the summary
record's `profile_url`. -/
theorem merge_field_precedence (fetch : String → FetchResult) (a : AgentInfo)
    (pid : String) (d : AgentInfo)
    (hpid : extractProfileId (a.profile_url.getD "") = some pid)
    (hd : fetch pid = FetchResult.success d) :
    mergedFieldsFollowSpec fetch a d := by
  have hout : (get_detailed_info fetch a).1 = mergeAgent d a := by
    unfold get_detailed_info
    rw [hpid]
    simp [hd]
  unfold mergedFieldsFollowSpec
  rw [hout]
  simp [mergeAgent, orStr_eq_present, orList_eq_present]

/-- Witness for Claim C3 at a concrete summary, detail record, and fetch. -/
theorem merge_field_precedence_witness :
    mergedFieldsFollowSpec
      (fun _ => FetchResult.success
        { name := some "Jane Doe", phone := some "", email := some "jane@x.com",
          profile_url := some "https://onereal.com/profile/other" })
      { name := some "J.", profile_url := some "https://onereal.com/profile/jane",
        phone := some "555" }
      { name := some "Jane Doe", phone := some "", email := some "jane@x.com",
        profile_url := some "https://onereal.com/profile/other" } :=
  merge_field_precedence _ _ "jane" _ (by decide) rfl

/-- Claim C4: a summary record from which no `/profile/<id>` identifier can be
derived triggers no detail fetch (empty fetch log), is emitted with its
summary fields unchanged, and is not counted as a failure. -/
theorem unparseable_url_skipped (fetch : String → FetchResult) (a : AgentInfo)
    (h : extractProfileId (a.profile_url.getD "") = none) :
    get_detailed_info fetch a = (a, 0, []) := by
  unfold get_detailed_info
  rw [h]

/-- Witness for Claim C4: a profile URL without a `/profile/<id>` segment. -/
theorem unparseable_url_skipped_witness :
    get_detailed_info (fun _ => FetchResult.failure)
      { name := some "X", profile_url := some "https://onereal.com/agents/jane" } =
    ({ name := some "X", profile_url := some "https://onereal.com/agents/jane" }, 0, []) :=
  unparseable_url_skipped _ _ (by decide)

/-- Execution phase of one enrichment unit: not yet holding a semaphore
permit, holding a permit with its detail fetch in flight, or settled. -/
inductive UnitState where
  | waiting
  | running
  | done
deriving Repr, DecidableEq

/-- Scheduler state of the batch: one entry per dispatched unit. -/
def PipelineState := List UnitState

/-- The permit count of `asyncio.Semaphore(3)` in `main.py` line 128: a fixed
constant, not derived from any input. -/
def semaphorePermits : Nat := 3

/-- Number of units currently holding a permit (detail fetches in flight). -/
def runningCount (s : PipelineState) : Nat :=
  List.countP (fun u => u = UnitState.running) s

/-- One scheduler step of the cooperative pipeline: a waiting unit may enter
its `async with semaphore` block only while fewer than `semaphorePermits`
units are in flight; a running unit may settle at any time, releasing its
permit on every exit path. -/
inductive PStep : PipelineState → PipelineState → Prop where
  | start (s : PipelineState) (i : Nat)
      (hw : s.get? i = some UnitState.waiting)
      (hcap : runningCount s < semaphorePermits) :
      PStep s (s.set i UnitState.running)
  | finish (s : PipelineState) (i : Nat)
      (hr : s.get? i = some UnitState.running) :
      PStep s (s.set i UnitState.done)

/-- Reachability under the scheduler steps. -/
inductive PReach : PipelineState → PipelineState → Prop where
  | refl (s : PipelineState) : PReach s s
  | tail {s t u : PipelineState} : PReach s t → PStep t u → PReach s u

/-- Initial state of a batch of `n` dispatched units: all waiting. -/
def initState (n : Nat) : PipelineState := List.replicate n UnitState.waiting

lemma countP_set_eq (p : UnitState → Bool) :
    ∀ (l : List UnitState) (i : Nat) (a b : UnitState),
      l.get? i = some a →
      List.countP p (l.set i b) + (if p a then 1 else 0) =
        List.countP p l + (if p b then 1 else 0) := by
  intro l
  induction l with
  | nil => intro i a b h; simp at h
  | cons x xs ih =>
    intro i a b h
    cases i with
    | zero =>
      simp only [List.get?] at h
      cases h
      simp [List.countP_cons]
      omega
    | succ j =>
      simp only [List.get?] at h
      have := ih j a b h
      simp [List.countP_cons]
      omega

lemma runningCount_init (n : Nat) : runningCount (initState n) = 0 := by
  induction n with
  | zero => rfl
  | succ m ih =>
    simp only [initState, List.replicate, runningCount, List.countP_cons] at *
    simp [ih]

/-- Claim C5: the in-flight bound is the fixed constant 3 and, in every state
the pipeline can reach from dispatch, at most `semaphorePermits` detail
fetches are in flight; a waiting unit can only start while a permit is free. -/
theorem concurrency_cap_invariant :
    semaphorePermits = 3 ∧
    ∀ (n : Nat) (s : PipelineState),
      PReach (initState n) s → runningCount s ≤ semaphorePermits := by
  refine ⟨rfl, ?_⟩
  intro n s h
  induction h with
  | refl => simp [runningCount_init]
  | tail _ hstep ih =>
    cases hstep with
    | start i hw hcap =>
      have hc := countP_set_eq (fun u => u = UnitState.running) _ i
        UnitState.waiting UnitState.running hw
      simp only [runningCount] at *
      simp at hc
      omega
    | finish i hr =>
      have hc := countP_set_eq (fun u => u = UnitState.running) _ i
        UnitState.running UnitState.done hr
      simp only [runningCount] at *
      simp at hc
      omega

/-- Witness for Claim C5: a concrete two-unit batch after one unit has
acquired a permit and begun its fetch. -/
theorem concurrency_cap_invariant_witness :
    semaphorePermits = 3 ∧
    runningCount ((initState 2).set 0 UnitState.running) ≤ semaphorePermits :=
  ⟨concurrency_cap_invariant.1,
   concurrency_cap_invariant.2 2 ((initState 2).set 0 UnitState.running)
    (PReach.tail (PReach.refl (initState 2))
      (PStep.start (initState 2) 0 (by decide) (by decide)))⟩

/-- `normalize_string` of `main.py` lines 236-240: `None` for falsy input,
else lower-cased and stripped. -/
def normalize_string (s : Option String) : Option String :=
  match s with
  | none => none
  | some s => if s = "" then none else some (pyStrip (pyLower s))

/-- `normalize_phone` of `main.py` lines 243-249: `None` for falsy input,
else `re.sub(r'[\s\-\(\)\+]', '', phone).lower()` — every whitespace, hyphen,
parenthesis and plus character removed, then lower-cased. -/
def normalize_phone (p : Option String) : Option String :=
  match p with
  | none => none
  | some s =>
    if s = "" then none
    else some (pyLower (String.mk (s.data.filter
      (fun c => !(isPySpace c || c = '-' || c = '(' || c = ')' || c = '+')))))

/-- `normalize_email` of `main.py` lines 252-256. -/
def normalize_email (e : Option String) : Option String :=
  match e with
  | none => none
  | some s => if s = "" then none else some (pyStrip (pyLower s))

/-- The `AgentVerificationRequest` pydantic model of `main.py`. -/
structure AgentVerificationRequest where
  name : Option String := none
  email : Option String := none
  phone : Option String := none
  license : Option String := none
deriving Repr, DecidableEq

/-- One comparison of `agent_matches`: both normalized values truthy and
equal (`if provided_x and scraped_x and provided_x == scraped_x`). -/
def fieldCmp (np nc : Option String) : Bool :=
  truthyStr np && truthyStr nc && decide (np = nc)

/-- One field block of `agent_matches`: when the raw provided value is truthy
the field counts toward `total_fields`, and toward `match_count` exactly when
the normalized comparison succeeds. Returns `(match increment, total
increment)`. -/
def fieldStep (raw : Option String) (norm : Option String → Option String)
    (scrapedVal : Option String) : Nat × Nat :=
  if truthyStr raw then
    (if fieldCmp (norm raw) (norm scrapedVal) then 1 else 0, 1)
  else (0, 0)

/-- `agent_matches` of `main.py` lines 259-304: counts provided fields and
matching fields over name, email, phone and license; no provided field means
no match; otherwise all provided fields must match and at least one must. -/
def agent_matches (provided : AgentVerificationRequest) (scraped : AgentInfo) :
    Bool :=
  let n := fieldStep provided.name normalize_string scraped.name
  let e := fieldStep provided.email normalize_email scraped.email
  let ph := fieldStep provided.phone normalize_phone scraped.phone
  let l := fieldStep provided.license normalize_string scraped.license
  let matchCount := n.1 + e.1 + ph.1 + l.1
  let totalFields := n.2 + e.2 + ph.2 + l.2
  if totalFields = 0 then false
  else decide (matchCount = totalFields) && decide (0 < matchCount)

/-- The matching loop of `verify_agent` (`main.py` lines 340-344): first
scraped agent matching the provided details, scanning in input order. -/
def findMatchedAgent (provided : AgentVerificationRequest) :
    List AgentInfo → Option AgentInfo
  | [] => none
  | a :: rest =>
    if agent_matches provided a then some a else findMatchedAgent provided rest

/-- One query field is satisfied by a candidate, in the words of Claim C6:
the normalized query value equals the normalized candidate value and the
candidate value is present after normalization (a missing candidate field
never satisfies a supplied query field). -/
def specFieldSat (np nc : Option String) : Bool :=
  truthyStr nc && decide (np = nc)

/-- The matching rule in the words of Claim C6: some query field is
non-empty, and every non-empty query field is satisfied by the candidate
after normalization — conjunctive, all-or-nothing. -/
def specMatches (p : AgentVerificationRequest) (c : AgentInfo) : Bool :=
  (truthyStr p.name || truthyStr p.email || truthyStr p.phone || truthyStr p.license)
  && (!truthyStr p.name || specFieldSat (normalize_string p.name) (normalize_string c.name))
  && (!truthyStr p.email || specFieldSat (normalize_email p.email) (normalize_email c.email))
  && (!truthyStr p.phone || specFieldSat (normalize_phone p.phone) (normalize_phone c.phone))
  && (!truthyStr p.license || specFieldSat (normalize_string p.license) (normalize_string c.license))

lemma fieldCmp_eq_specFieldSat (np nc : Option String) :
    fieldCmp np nc = specFieldSat np nc := by
  by_cases h : np = nc
  · subst h
    cases hb : truthyStr np <;> simp [fieldCmp, specFieldSat, hb]
  · simp [fieldCmp, specFieldSat, h]

lemma fieldStep_eq (raw : Option String) (norm : Option String → Option String)
    (sv : Option String) :
    fieldStep raw norm sv =
      if truthyStr raw then
        (if specFieldSat (norm raw) (norm sv) then 1 else 0, 1)
      else (0, 0) := by
  simp [fieldStep, fieldCmp_eq_specFieldSat]

lemma agent_matches_eq_specMatches (p : AgentVerificationRequest)
    (c : AgentInfo) : agent_matches p c = specMatches p c := by
  unfold agent_matches specMatches
  rw [fieldStep_eq, fieldStep_eq, fieldStep_eq, fieldStep_eq]
  cases hn : truthyStr p.name <;> cases he : truthyStr p.email <;>
    cases hp : truthyStr p.phone <;> cases hl : truthyStr p.license <;>
    cases b1 : specFieldSat (normalize_string p.name) (normalize_string c.name) <;>
    cases b2 : specFieldSat (normalize_email p.email) (normalize_email c.email) <;>
    cases b3 : specFieldSat (normalize_phone p.phone) (normalize_phone c.phone) <;>
    cases b4 : specFieldSat (normalize_string p.license) (normalize_string c.license) <;>
    simp [hn, he, hp, hl, b1, b2, b3, b4]

/-- Claim C6: `agent_matches` coincides with the conjunctive all-or-nothing
rule of the spec, the verification loop returns the first candidate in input
order satisfying it, and a query with no non-empty field matches no
candidate. -/
theorem match_evaluator_first_conjunctive :
    (∀ (p : AgentVerificationRequest) (c : AgentInfo),
      agent_matches p c = specMatches p c)
    ∧ (∀ (p : AgentVerificationRequest) (cs : List AgentInfo),
      findMatchedAgent p cs = cs.find? (fun c => specMatches p c))
    ∧ (∀ (p : AgentVerificationRequest) (cs : List AgentInfo),
      truthyStr p.name = false → truthyStr p.email = false →
      truthyStr p.phone = false → truthyStr p.license = false →
      findMatchedAgent p cs = none) := by
  have hfind : ∀ (p : AgentVerificationRequest) (cs : List AgentInfo),
      findMatchedAgent p cs = cs.find? (fun c => specMatches p c) := by
    intro p cs
    induction cs with
    | nil => rfl
    | cons a rest ih =>
      simp only [findMatchedAgent, List.find?, agent_matches_eq_specMatches]
      cases h : specMatches p a <;> simp [h, ih]
  refine ⟨agent_matches_eq_specMatches, hfind, ?_⟩
  intro p cs hn he hp hl
  rw [hfind]
  have hfalse : ∀ c : AgentInfo, specMatches p c = false := by
    intro c
    simp [specMatches, hn, he, hp, hl]
  induction cs with
  | nil => rfl
  | cons a rest ih => simp [List.find?, hfalse a, ih]

/-- Witness for Claim C6 on concrete data: a conjunctive two-field query
matching the first of two candidates, and an all-empty query matching none. -/
theorem match_evaluator_first_conjunctive_witness :
    (agent_matches { name := some "Jane Doe", email := some "JANE@X.COM" }
        { name := some "jane doe", email := some "jane@x.com" } =
      specMatches { name := some "Jane Doe", email := some "JANE@X.COM" }
        { name := some "jane doe", email := some "jane@x.com" })
    ∧ (findMatchedAgent { name := some "Jane Doe", email := some "JANE@X.COM" }
        [{ name := some "jane doe", email := some "jane@x.com" },
         { name := some "jane doe", email := some "other@x.com" }] =
      List.find?
        (fun c => specMatches { name := some "Jane Doe", email := some "JANE@X.COM" } c)
        [{ name := some "jane doe", email := some "jane@x.com" },
         { name := some "jane doe", email := some "other@x.com" }])
    ∧ (findMatchedAgent { } [{ name := some "jane doe" }] = none) :=
  ⟨match_evaluator_first_conjunctive.1 _ _,
   match_evaluator_first_conjunctive.2.1 _ _,
   match_evaluator_first_conjunctive.2.2 { } [{ name := some "jane doe" }]
    rfl rfl rfl rfl⟩

/-- Modelled from the words of Claim C7: phone normalization that removes
whitespace, hyphens and parentheses everywhere but removes only leading `+`
characters, then case-folds. Stated for comparison with `normalize_phone`. -/
def claimPhoneNormLeading (p : Option String) : Option String :=
  match p with
  | none => none
  | some s =>
    if s = "" then none
    else some (pyLower (String.mk ((s.data.filter
      (fun c => !(isPySpace c || c = '-' || c = '(' || c = ')'))).dropWhile
        (fun c => c = '+'))))

/-- Claim C7 counterexample: on the phone string `5+5` the code removes the
interior `+` (`re.sub` deletes every `+`), while a normalization that removes
only leading `+` characters would keep it — the claimed description of
`normalize_phone` is not the implemented one. -/
theorem phone_norm_not_leading_only :
    normalize_phone (some "5+5") ≠ claimPhoneNormLeading (some "5+5") := by
  decide

/-- Modelled from the amended words of Claim C7: remove every whitespace,
hyphen, parenthesis and `+` character wherever it occurs, then case-fold. -/
def claimPhoneNormAll (p : Option String) : Option String :=
  match p with
  | none => none
  | some s =>
    if s = "" then none
    else some (pyLower (String.mk (s.data.filter
      (fun c => !(isPySpace c || c = '-' || c = '(' || c = ')' || c = '+')))))

/-- Claim C7 (amended): phone normalization removes all whitespace, hyphen,
parenthesis and `+` characters — wherever they occur, not only leading —
and then case-folds, so query phone `(555) 123-4567` matches a candidate
with phone `555-123-4567` and a candidate with phone `+5551234567`. -/
theorem phone_norm_removes_all_plus :
    (∀ p : Option String, normalize_phone p = claimPhoneNormAll p)
    ∧ agent_matches { phone := some "(555) 123-4567" }
        { phone := some "555-123-4567" } = true
    ∧ agent_matches { phone := some "(555) 123-4567" }
        { phone := some "+5551234567" } = true := by
  refine ⟨?_, by decide, by decide⟩
  intro p
  cases p with
  | none => rfl
  | some s => rfl

/-- The `AgentVerificationResponse` pydantic model of `main.py`; its `match`
field is called `matched` here because `match` is reserved in Lean. -/
structure AgentVerificationResponse where
  matched : Bool
  message : String
  matched_agent : Option AgentInfo
  provided_details : AgentVerificationRequest
deriving Repr, DecidableEq

/-- Outcome of a `verify_agent` request: an `HTTPException` carrying a status
code and detail, or a structured response. -/
inductive VerifyResult where
  | clientError (statusCode : Nat) (detail : String)
  | ok (resp : AgentVerificationResponse)
deriving Repr, DecidableEq

/-- The `verify_agent` handler of `main.py` lines 307-364, instrumented with
the number of summary-fetch (`scrape_local_agents_page`) calls a run
performs: the all-fields-falsy validation raises a 400 `HTTPException`
before the fetch; otherwise the page is scraped once and the first matching
agent decides the response. -/
def verify_agent (fetchAgents : Unit → List AgentInfo)
    (agent_details : AgentVerificationRequest) : VerifyResult × Nat :=
  if !(truthyStr agent_details.name || truthyStr agent_details.email ||
       truthyStr agent_details.phone || truthyStr agent_details.license) then
    (VerifyResult.clientError 400
      "At least one field (name, email, phone, or license) must be provided", 0)
  else
    match findMatchedAgent agent_details (fetchAgents ()) with
    | some a =>
      (VerifyResult.ok
        ⟨true, "Agent details match found on website", some a, agent_details⟩, 1)
    | none =>
      (VerifyResult.ok
        ⟨false, "Agent details not found on website", none, agent_details⟩, 1)

/-- Claim C8: a verify request with all four fields absent fails with an
HTTP 400 client error, and no summary fetch is performed on that path,
whatever the fetcher would have returned. -/
theorem verify_validation_before_fetch (fetchAgents : Unit → List AgentInfo) :
    verify_agent fetchAgents
      { name := none, email := none, phone := none, license := none } =
    (VerifyResult.clientError 400
      "At least one field (name, email, phone, or license) must be provided", 0) :=
  rfl

lemma specFieldSat_empty (nc : Option String) :
    specFieldSat (some "") nc = false := by
  cases nc with
  | none => simp [specFieldSat, truthyStr]
  | some s =>
    by_cases h : s = "" <;> simp [specFieldSat, truthyStr, h, eq_comm]

/-- Claim C10: a query field that is non-empty but whitespace-only counts as
supplied — so the request passes the all-fields-absent validation — yet its
normalized form is the empty string, which the comparison treats as absent,
so `agent_matches` rejects every candidate. -/
theorem whitespace_query_never_matches (q : AgentVerificationRequest)
    (h : (truthyStr q.name = true ∧ normalize_string q.name = some "")
       ∨ (truthyStr q.email = true ∧ normalize_email q.email = some "")
       ∨ (truthyStr q.phone = true ∧ normalize_phone q.phone = some "")
       ∨ (truthyStr q.license = true ∧ normalize_string q.license = some "")) :
    (truthyStr q.name || truthyStr q.email ||
     truthyStr q.phone || truthyStr q.license) = true
    ∧ ∀ c : AgentInfo, agent_matches q c = false := by
  rcases h with ⟨ht, hn⟩ | ⟨ht, hn⟩ | ⟨ht, hn⟩ | ⟨ht, hn⟩ <;>
    refine ⟨by simp [ht], ?_⟩ <;> intro c <;>
    rw [agent_matches_eq_specMatches] <;>
    simp [specMatches, ht, hn, specFieldSat_empty]

/-- Witness for Claim C10: the query whose name is three spaces passes
validation but matches no candidate. -/
theorem whitespace_query_never_matches_witness :
    (truthyStr ({ name := some "   " } : AgentVerificationRequest).name ||
     truthyStr ({ name := some "   " } : AgentVerificationRequest).email ||
     truthyStr ({ name := some "   " } : AgentVerificationRequest).phone ||
     truthyStr ({ name := some "   " } : AgentVerificationRequest).license) = true
    ∧ ∀ c : AgentInfo,
        agent_matches { name := some "   " } c = false :=
  whitespace_query_never_matches { name := some "   " }
    (Or.inl ⟨by decide, by decide⟩)

/-- The per-agent dict built by the search-page extraction of
`scrape_agents_full_mcp` (`scraper_mcp.py`): keys `url`, `name`, `imageUrl`. -/
structure McpAgentData where
  url : Option String := none
  name : Option String := none
  imageUrl : Option String := none
deriving Repr, DecidableEq

/-- The inner `get_detailed_info` of `scraper_mcp.py` lines 173-221: `none`
when no identifier can be derived (the record is later filtered out); on a
successful fetch, `name` and `image_url` fall back to the summary data but
every other field is taken from the detail record alone; on an empty fetch
result or an exception, a record is rebuilt from the summary data alone. -/
def mcp_get_detailed_info (fetch : String → FetchResult) (d : McpAgentData) :
    Option AgentInfo :=
  match extractProfileId (d.url.getD "") with
  | none => none
  | some profile_id =>
    match fetch profile_id with
    | FetchResult.success info =>
        some
          { name := orStr info.name d.name
            location := info.location
            profile_url := some (d.url.getD "")
            phone := info.phone
            email := info.email
            bio := info.bio
            specialties := info.specialties
            languages := info.languages
            years_experience := info.years_experience
            image_url := orStr info.image_url d.imageUrl
            office := info.office
            license := info.license
            website := info.website
            facebook := info.facebook
            instagram := info.instagram }
    | FetchResult.empty =>
        some { name := d.name, profile_url := some (d.url.getD ""),
               image_url := d.imageUrl }
    | FetchResult.failure =>
        some { name := d.name, profile_url := d.url, image_url := d.imageUrl }

/-- The batch stage of `scrape_agents_full_mcp` (`scraper_mcp.py` lines
223-239): gather all unit results (the units catch their own exceptions) and
drop the `None` results. -/
def mcp_enrich_pipeline (fetch : String → FetchResult)
    (ds : List McpAgentData) : List AgentInfo :=
  ds.filterMap (mcp_get_detailed_info fetch)

/-- The projection of a summary record onto the fields the MCP search-page
extraction carries. -/
def toMcp (a : AgentInfo) : McpAgentData :=
  { url := a.profile_url, name := a.name, imageUrl := a.image_url }

/-- Claim C9 counterexample: on the same single summary record, whose
`profile_url` has no `/profile/<id>` segment, and the same fetch results,
the direct pipeline emits one record while the MCP pipeline emits zero — the
two transports are not interchangeable. -/
theorem pipelines_differ_on_unparseable :
    (get_all_agents_full (fun _ => FetchResult.empty)
        [{ name := some "A", profile_url := some "nope" }]).1.length ≠
      (mcp_enrich_pipeline (fun _ => FetchResult.empty)
        [toMcp { name := some "A", profile_url := some "nope" }]).length := by
  decide

/-- A summary record carrying only the fields the MCP search-page extraction
can produce: everything except `name`, `profile_url` and `image_url` absent. -/
def mcpShape (a : AgentInfo) : Prop :=
  a.location = none ∧ a.phone = none ∧ a.email = none ∧ a.bio = none ∧
  a.specialties = none ∧ a.languages = none ∧ a.years_experience = none ∧
  a.office = none ∧ a.license = none ∧ a.website = none ∧
  a.facebook = none ∧ a.instagram = none

/-- A detail record with no present-but-empty value in the fields the MCP
merge copies verbatim: each such field is either absent or non-empty. -/
def cleanInfo (i : AgentInfo) : Prop :=
  i.location ≠ some "" ∧ i.phone ≠ some "" ∧ i.email ≠ some "" ∧
  i.bio ≠ some "" ∧ i.specialties ≠ some [] ∧ i.languages ≠ some [] ∧
  i.years_experience ≠ some "" ∧ i.office ≠ some "" ∧ i.license ≠ some "" ∧
  i.website ≠ some "" ∧ i.facebook ≠ some "" ∧ i.instagram ≠ some ""

lemma orStr_none_of_ne (x : Option String) (h : x ≠ some "") :
    orStr x none = x := by
  cases x with
  | none => rfl
  | some s =>
    have hs : s ≠ "" := fun hs => h (by rw [hs])
    simp [orStr, truthyStr, hs]

lemma orList_none_of_ne (x : Option (List String)) (h : x ≠ some []) :
    orList x none = x := by
  cases x with
  | none => rfl
  | some l =>
    have hl : l ≠ [] := fun hl => h (by rw [hl])
    simp [orList, truthyList, hl]

lemma profile_url_of_parseable (a : AgentInfo)
    (h : extractProfileId (a.profile_url.getD "") ≠ none) :
    ∃ u, a.profile_url = some u := by
  cases hu : a.profile_url with
  | none =>
    rw [hu] at h
    exact absurd rfl h
  | some u => exact ⟨u, rfl⟩

lemma mcp_unit_agrees (fetch : String → FetchResult) (a : AgentInfo)
    (hshape : mcpShape a)
    (hparse : extractProfileId (a.profile_url.getD "") ≠ none)
    (hclean : ∀ pid info, fetch pid = FetchResult.success info → cleanInfo info) :
    mcp_get_detailed_info fetch (toMcp a) = some (get_detailed_info fetch a).1 := by
  obtain ⟨u, hu⟩ := profile_url_of_parseable a hparse
  cases hpid : extractProfileId (a.profile_url.getD "") with
  | none => exact absurd hpid hparse
  | some pid =>
    obtain ⟨nm, loc, purl, ph, em, bio, sp, lg, ye, im, off, lic, web, fb, ig⟩ := a
    obtain ⟨h1, h2, h3, h4, h5, h6, h7, h8, h9, h10, h11, h12⟩ := hshape
    simp only at h1 h2 h3 h4 h5 h6 h7 h8 h9 h10 h11 h12 hu
    subst h1 h2 h3 h4 h5 h6 h7 h8 h9 h10 h11 h12 hu
    simp only at hpid
    unfold mcp_get_detailed_info get_detailed_info toMcp
    simp only [Option.getD] at *
    rw [hpid]
    cases hf : fetch pid with
    | success info =>
      obtain ⟨c1, c2, c3, c4, c5, c6, c7, c8, c9, c10, c11, c12⟩ := hclean pid info hf
      simp [hf, mergeAgent, orStr_none_of_ne _ c1, orStr_none_of_ne _ c2,
        orStr_none_of_ne _ c3, orStr_none_of_ne _ c4, orList_none_of_ne _ c5,
        orList_none_of_ne _ c6, orStr_none_of_ne _ c7, orStr_none_of_ne _ c8,
        orStr_none_of_ne _ c9, orStr_none_of_ne _ c10, orStr_none_of_ne _ c11,
        orStr_none_of_ne _ c12]
    | empty => simp [hf]
    | failure => simp [hf]

/-- Claim C9 (amended): the two transports implement the same fan-out
contract only on summary records of the MCP shape (just `name`,
`profile_url`, `image_url` populated) whose `profile_url` yields an
identifier, provided successful detail records carry no present-but-empty
field: on such batches, given the same summary records and the same detail
fetch results, the two pipelines produce identical record lists; a record
with an unparseable `profile_url` is emitted unchanged by the direct
pipeline but dropped by the MCP pipeline. -/
theorem pipelines_agree_on_mcp_shape (fetch : String → FetchResult)
    (agents : List AgentInfo)
    (hshape : ∀ a ∈ agents, mcpShape a)
    (hparse : ∀ a ∈ agents, extractProfileId (a.profile_url.getD "") ≠ none)
    (hclean : ∀ pid info, fetch pid = FetchResult.success info → cleanInfo info) :
    mcp_enrich_pipeline fetch (agents.map toMcp) =
      (get_all_agents_full fetch agents).1 := by
  unfold mcp_enrich_pipeline get_all_agents_full
  revert hshape hparse
  induction agents with
  | nil => intro _ _; rfl
  | cons a rest ih =>
    intro hshape hparse
    have hunit := mcp_unit_agrees fetch a (hshape a (List.mem_cons_self a rest))
      (hparse a (List.mem_cons_self a rest)) hclean
    have hrest := ih (fun b hb => hshape b (List.mem_cons_of_mem a hb))
      (fun b hb => hparse b (List.mem_cons_of_mem a hb))
    simp only [List.map_cons, List.filterMap_cons, hunit]
    rw [hrest]

/-- A summary record of the MCP shape for the Claim C9 witness. -/
def w9agent : AgentInfo :=
  { name := some "J", profile_url := some "https://onereal.com/profile/jane",
    image_url := some "img" }

/-- A clean detail record for the Claim C9 witness. -/
def w9detail : AgentInfo :=
  { name := some "Jane Doe", location := some "NY", phone := some "555" }

/-- A fetch oracle that always succeeds with `w9detail`. -/
def w9fetch : String → FetchResult := fun _ => FetchResult.success w9detail

/-- Witness for the amended Claim C9 on a concrete one-record batch. -/
theorem pipelines_agree_on_mcp_shape_witness :
    mcp_enrich_pipeline w9fetch ([w9agent].map toMcp) =
      (get_all_agents_full w9fetch [w9agent]).1 :=
  pipelines_agree_on_mcp_shape w9fetch [w9agent]
    (by
      intro a ha
      simp only [List.mem_singleton] at ha
      subst ha
      exact ⟨rfl, rfl, rfl, rfl, rfl, rfl, rfl, rfl, rfl, rfl, rfl, rfl⟩)
    (by
      intro a ha
      simp only [List.mem_singleton] at ha
      subst ha
      decide)
    (by
      intro pid info h
      have hinfo : FetchResult.success w9detail = FetchResult.success info := h
      injection hinfo with h2
      subst h2
      unfold cleanInfo
      decide)
